import Mathlib

/-!
Shallow embedding of the ingestion, normalization and membership
cross-reference pipeline of the signal-export repository
(src/sigexport/data.py and src/sigexport/main.py), together with
theorems settling the frozen claims about it.

Conventions of the embedding:
* Python `None`-able columns become `Option` values; Python truthiness of
  strings and integers is made explicit (`cidTruthy`, `timerTruthy`).
* Python `dict`s become association lists with insert-or-replace semantics
  (`dictInsert`), preserving insertion order as CPython dicts do.
* The external JSON decoder (`json.loads`) applied to the message payload
  column is modelled by the observable outcome of decoding that column:
  a `JsonDoc` is either `malformed` (decoding fails, with the document text
  and failure position that populate the raised decode error) or `decoded`
  (the dictionary of optional payload sub-fields the code reads).
* Database rows are the two ordered row streams the code consumes.
-/

deriving instance DecidableEq for Except

namespace Sigexport

/-- Python-dict insert: replace the value in place if the key is present,
otherwise append at the end (CPython insertion-order semantics). -/
def dictInsert {κ α : Type} [DecidableEq κ] (k : κ) (v : α) :
    List (κ × α) → List (κ × α)
  | [] => [(k, v)]
  | (k2, v2) :: rest =>
    if k = k2 then (k, v) :: rest else (k2, v2) :: dictInsert k v rest

/-- Python-dict lookup returning `none` when the key is absent. -/
def dictGet? {κ α : Type} [DecidableEq κ] (k : κ) :
    List (κ × α) → Option α
  | [] => none
  | (k2, v2) :: rest => if k = k2 then some v2 else dictGet? k rest

/-- Python `k in d` membership test on a dict. -/
def dictHas {κ α : Type} [DecidableEq κ] (k : κ) (d : List (κ × α)) : Bool :=
  (dictGet? k d).isSome

/-- A raw row of the `conversations` query
(`SELECT type, id, serviceId, e164, name, profileName, members FROM conversations`,
data.py line 46). -/
structure ConvoRow where
  type : Option String
  id : String
  serviceId : Option String
  e164 : Option String
  name : Option String
  profileName : Option String
  members : Option String
deriving DecidableEq

/-- The `models.Contact` record as populated by `fetch_data`
(data.py lines 55-63). -/
structure Contact where
  id : String
  serviceId : Option String
  name : Option String
  number : Option String
  profile_name : Option String
  members : List String
  is_group : Bool
deriving DecidableEq

/-- Accumulator pass of `pySplitChar`: collect the current field in
reverse until the separator, emitting fields as they close. -/
def splitCharAux (sep : Char) : List Char → List Char → List String
  | [], acc => [String.mk acc.reverse]
  | c :: cs, acc =>
    if c = sep then String.mk acc.reverse :: splitCharAux sep cs []
    else splitCharAux sep cs (c :: acc)

/-- Python `s.split(sep)` for a one-character separator: splits at every
separator occurrence, keeping empty fields, and yields one empty field on
the empty string. -/
def pySplitChar (sep : Char) (s : String) : List String :=
  splitCharAux sep s.data []

/-- `members = result[6].split(" ") if result[6] else []` (data.py lines 50-52):
a falsy (absent or empty) member string yields the empty list, otherwise a
split on single spaces. -/
def parseMembers : Option String → List String
  | none => []
  | some s => if s = "" then [] else pySplitChar ' ' s

/-- Contact construction for one conversation row, including the
`is_group` tag (`result[0] == "group"`, data.py line 53) and the one-time
name fallback (`if contacts[cid].name is None: ... = profile_name`,
data.py lines 64-65). -/
def normalizeContact (r : ConvoRow) : Contact :=
  let c : Contact :=
    { id := r.id
      serviceId := r.serviceId
      name := r.name
      number := r.e164
      profile_name := r.profileName
      members := parseMembers r.members
      is_group := r.type == some "group" }
  if c.name = none then { c with name := c.profile_name } else c

/-- `chats_list = chats.split(",") if len(chats) > 0 else []` (data.py line 35). -/
def chatsList (chats : String) : List String :=
  if chats.length > 0 then pySplitChar ',' chats else []

/-- Python `x in l` where `x` is a nullable string and `l` a list of
strings: `None in l` is `False` for a list of strings. -/
def optIn (x : Option String) (l : List String) : Bool :=
  match x with
  | some s => l.contains s
  | none => false

abbrev Contacts := List (String × Contact)

/-- A message as ingested (`models.RawMessage`, data.py lines 82-99).
Attachment descriptors, call-history entries, reactions, stickers and
quotes are opaque to the pipeline and modelled as strings. -/
structure RawMessage where
  conversation_id : String
  id : String
  type : Option String
  body : Option String
  source : Option String
  timestamp : Option Int
  sent_at : Option Int
  server_timestamp : Option Int
  has_attachments : Option Int
  attachments : List String
  read_status : Option Int
  seen_status : Option Int
  call_history : Option String
  reactions : List String
  sticker : Option String
  quote : Option String
deriving DecidableEq

abbrev Convos := List (String × List RawMessage)

/-- The dictionary obtained from a successfully decoded message payload;
each sub-field the code reads may be absent (`jsonLoaded.get(...)`,
data.py lines 92-98). -/
structure PayloadDict where
  attachments : Option (List String)
  call_history : Option String
  reactions : Option (List String)
  sticker : Option String
  quote : Option String
deriving DecidableEq

/-- The embedded JSON payload column of a message row, modelled by the
observable outcome of the external JSON decoder on it: either decoding
fails (`malformed`, carrying the document text and failure position) or it
yields a `PayloadDict`. -/
inductive JsonDoc where
  | malformed (doc : String) (pos : Nat)
  | decoded (d : PayloadDict)
deriving DecidableEq

/-- The error raised by the JSON decoder on a malformed document
(Python `json.JSONDecodeError`): it carries a decoder message, the
document text and the failure position — and no other data. -/
structure JSONDecodeError where
  msg : String
  doc : String
  pos : Nat
deriving DecidableEq

/-- `json.loads(result[2])` (data.py line 75): fails with a
`JSONDecodeError` built from the document alone, or returns the decoded
payload dictionary. -/
def json_loads : JsonDoc → Except JSONDecodeError PayloadDict
  | .malformed doc pos => .error { msg := "Expecting value", doc := doc, pos := pos }
  | .decoded d => .ok d

/-- Decoding outcome test for a payload column. -/
def jsonOk : JsonDoc → Bool
  | .malformed _ _ => false
  | .decoded _ => true

/-- The decode error that `json_loads` raises on a given payload column;
a function of the column only (in particular not of the row's message id). -/
def decodeErrorOf : JsonDoc → JSONDecodeError
  | .malformed doc pos => { msg := "Expecting value", doc := doc, pos := pos }
  | .decoded _ => { msg := "", doc := "", pos := 0 }

/-- A raw row of the `messages` query (data.py line 70), in the stream
order the query returns (`ORDER BY sent_at`). -/
structure MsgRow where
  conversationId : Option String
  type : Option String
  json : JsonDoc
  id : String
  body : Option String
  sourceServiceId : Option String
  timestamp : Option Int
  sent_at : Option Int
  serverTimestamp : Option Int
  hasAttachments : Option Int
  readStatus : Option Int
  seenStatus : Option Int
  expireTimer : Option Int
deriving DecidableEq

/-- Python truthiness of the nullable `conversationId` column
(`if cid and ...`, data.py line 76). -/
def cidTruthy : Option String → Bool
  | none => false
  | some s => s ≠ ""

/-- Python truthiness of the nullable integer `expireTimer` column
(`if expireTimer and ...`, data.py line 80). -/
def timerTruthy : Option Int → Bool
  | none => false
  | some n => n ≠ 0

/-- `type in ["keychange", "profile-change", None]` (data.py line 77). -/
def excludedType (t : Option String) : Bool :=
  t == some "keychange" || t == some "profile-change" || t == none

/-- The `models.RawMessage(...)` construction (data.py lines 82-99). -/
def mkRawMessage (cid : String) (r : MsgRow) (jsonLoaded : PayloadDict) :
    RawMessage :=
  { conversation_id := cid
    id := r.id
    type := r.type
    body := r.body
    source := r.sourceServiceId
    timestamp := r.timestamp
    sent_at := r.sent_at
    server_timestamp := r.serverTimestamp
    has_attachments := r.hasAttachments
    attachments := jsonLoaded.attachments.getD []
    read_status := r.readStatus
    seen_status := r.seenStatus
    call_history := jsonLoaded.call_history
    reactions := jsonLoaded.reactions.getD []
    sticker := jsonLoaded.sticker
    quote := jsonLoaded.quote }

/-- Append a message to the bucket of an existing conversation key
(`convos[cid].append(con)`, data.py line 100). -/
def dictAppendMsg (k : String) (m : RawMessage) : Convos → Convos
  | [] => []
  | (k2, ms) :: rest =>
    if k = k2 then (k2, ms ++ [m]) :: rest
    else (k2, ms) :: dictAppendMsg k m rest

/-- One iteration of the message loop (data.py lines 72-100): the payload
is decoded first (line 75, before any exclusion check); then the row is
dropped when its conversation id is falsy or not retained, when its type
is excluded, or when it carries a truthy expiration timer without the
include-disappearing opt-in; otherwise the message is appended. -/
def processMsgRow (include_disappearing : Bool) (convos : Convos)
    (r : MsgRow) : Except JSONDecodeError Convos :=
  match json_loads r.json with
  | .error e => .error e
  | .ok jsonLoaded =>
    match r.conversationId with
    | none => .ok convos
    | some cid =>
      if cid = "" then .ok convos
      else if !dictHas cid convos then .ok convos
      else if excludedType r.type then .ok convos
      else if timerTruthy r.expireTimer && !include_disappearing then .ok convos
      else .ok (dictAppendMsg cid (mkRawMessage cid r jsonLoaded) convos)

/-- The whole message loop over the ordered row stream. -/
def processMsgRows (include_disappearing : Bool) :
    Convos → List MsgRow → Except JSONDecodeError Convos
  | convos, [] => .ok convos
  | convos, r :: rs =>
    match processMsgRow include_disappearing convos r with
    | .error e => .error e
    | .ok convos2 => processMsgRows include_disappearing convos2 rs

/-- One iteration of the conversation loop (data.py lines 48-68): register
the normalized contact, then retain a conversation bucket when no chat
filter was given or the row's raw name or raw profile name is in the
filter list. -/
def processConvoRow (chats : String) (st : Contacts × Convos)
    (r : ConvoRow) : Contacts × Convos :=
  let contacts := dictInsert r.id (normalizeContact r) st.1
  let convos :=
    if chats = "" || optIn r.name (chatsList chats)
        || optIn r.profileName (chatsList chats)
    then dictInsert r.id ([] : List RawMessage) st.2
    else st.2
  (contacts, convos)

/-- The whole conversation loop. -/
def processConvoRows (chats : String) (rows : List ConvoRow) :
    Contacts × Convos :=
  rows.foldl (processConvoRow chats) ([], [])

/-- The Conversation Pruner (data.py lines 102-103): when `include_empty`
is false, drop every conversation whose message list is empty. -/
def pruneConvos (include_empty : Bool) (convos : Convos) : Convos :=
  if include_empty then convos
  else convos.filter (fun kv => decide (kv.2.length > 0))

/-- `fetch_data` (data.py lines 14-105) restricted to its pure data path:
the two row streams stand for the results of the two queries; the return
value is the `(convos, contacts)` pair, or the propagated decode error of
a malformed message payload. -/
def fetch_data (chats : String) (include_empty include_disappearing : Bool)
    (convoRows : List ConvoRow) (msgRows : List MsgRow) :
    Except JSONDecodeError (Convos × Contacts) :=
  match processConvoRows chats convoRows with
  | (contacts, convos0) =>
    match processMsgRows include_disappearing convos0 msgRows with
    | .error e => .error e
    | .ok convos1 => .ok (pruneConvos include_empty convos1, contacts)

/-- Membership test in conversation buckets by message id. -/
def msgInConvos (convos : Convos) (mid : String) : Bool :=
  convos.any fun kv => kv.2.any fun m => m.id == mid

/-- A command sent to the database handle during session establishment and
querying (data.py lines 40-47 and 70-71). -/
inductive DbCommand where
  | pragmaKey (key : String)
  | pragmaPageSize (n : Nat)
  | pragmaKdfIter (n : Nat)
  | pragmaHmac (alg : String)
  | pragmaKdf (alg : String)
  | query (sql : String)
deriving DecidableEq

/-- The kind of a database command, for stating order properties. -/
inductive DbCommandKind where
  | keyK
  | pageSizeK
  | kdfIterK
  | hmacK
  | kdfK
  | queryK
deriving DecidableEq

/-- Classify a database command by kind. -/
def DbCommand.kind : DbCommand → DbCommandKind
  | .pragmaKey _ => .keyK
  | .pragmaPageSize _ => .pageSizeK
  | .pragmaKdfIter _ => .kdfIterK
  | .pragmaHmac _ => .hmacK
  | .pragmaKdf _ => .kdfK
  | .query _ => .queryK

/-- The exact sequence of commands `fetch_data` executes on the cursor, in
program order (data.py lines 40-47 then 70-71): the key pragma first, then
the four cipher parameter pragmas, then the two queries. -/
def sessionCommands (key : String) : List DbCommand :=
  [ .pragmaKey key,
    .pragmaPageSize 4096,
    .pragmaKdfIter 64000,
    .pragmaHmac "HMAC_SHA512",
    .pragmaKdf "PBKDF2_HMAC_SHA512",
    .query "SELECT type, id, serviceId, e164, name, profileName, members FROM conversations",
    .query "SELECT conversationId, type, json, id, body, sourceServiceId, timestamp, sent_at, serverTimestamp, hasAttachments, readStatus, seenStatus, expireTimer FROM messages ORDER BY sent_at" ]

/-- Modelled from the spec: the cipher-parameter application order the spec
asserts for session establishment — page size, key-derivation iteration
count, HMAC algorithm, key-derivation algorithm, and only then the secret
bound as a key parameter. Stated as a kind sequence, for comparison with
the kinds of `sessionCommands`. -/
def claimedCipherOrder : List DbCommandKind :=
  [.pageSizeK, .kdfIterK, .hmacK, .kdfK, .keyK]

/-- A Python value flowing out of `fetch_data`: one of the two components
of its returned tuple. -/
inductive PyVal where
  | convosV (c : Convos)
  | contactsV (c : Contacts)
deriving DecidableEq

/-- The tuple `fetch_data` returns (`return convos, contacts`,
data.py line 105), viewed as the sequence of values Python would unpack. -/
def fetch_data_tuple (p : Convos × Contacts) : List PyVal :=
  [.convosV p.1, .contactsV p.2]

/-- Python unpacking of a 3-target assignment
(`convos, contacts, owner = ...`, main.py line 87): succeeds only on a
sequence of exactly three values, otherwise raises `ValueError`. -/
def unpack3 (vs : List PyVal) : Except String (PyVal × PyVal × PyVal) :=
  match vs with
  | [a, b, c] => .ok (a, b, c)
  | [] => .error "ValueError: not enough values to unpack (expected 3, got 0)"
  | [_] => .error "ValueError: not enough values to unpack (expected 3, got 1)"
  | [_, _] => .error "ValueError: not enough values to unpack (expected 3, got 2)"
  | _ => .error "ValueError: too many values to unpack (expected 3)"

/-- The data-fetch step of `main` (main.py lines 87-94): call `fetch_data`
and unpack its result into three targets. A decode error inside
`fetch_data` propagates; a successful fetch is unpacked. -/
def main_data_step (chats : String) (include_empty include_disappearing : Bool)
    (convoRows : List ConvoRow) (msgRows : List MsgRow) :
    Except String (PyVal × PyVal × PyVal) :=
  match fetch_data chats include_empty include_disappearing convoRows msgRows with
  | .error e => .error ("JSONDecodeError: " ++ e.msg)
  | .ok p => unpack3 (fetch_data_tuple p)

/-- Python `x in l` test used by the group-membership comprehension
(`member.serviceId in g.members`, main.py line 203): a `None` service id is
never a member of a list of strings. -/
def sidMem (sid : Option String) (members : List String) : Bool :=
  match sid with
  | some s => members.contains s
  | none => false

/-- `contacts_by_serviceId = {c.serviceId: c for c in contacts.values()}`
(main.py lines 177-181): a dict keyed by the nullable service id, later
entries overwriting earlier ones. -/
def contacts_by_serviceId (contacts : Contacts) :
    List (Option String × Contact) :=
  (contacts.map (·.2)).foldl (fun d c => dictInsert c.serviceId c d) []

/-- `all_groups = [g for g in contacts.values() if g.is_group]`
(main.py line 182). -/
def all_groups (contacts : Contacts) : List Contact :=
  (contacts.map (·.2)).filter (·.is_group)

/-- The `other_groups` comprehension (main.py lines 200-208): names of
groups that contain the member's service id, filtered by
`key != g.id and member.serviceId != owner.serviceId`. -/
def other_groups (groups : List Contact) (key : String)
    (member owner : Contact) : List (Option String) :=
  (groups.filter fun g =>
    sidMem member.serviceId g.members
      && (!(key == g.id) && !(member.serviceId == owner.serviceId))).map (·.name)

/-- One member entry of the nested group metadata document
(main.py lines 196-208). -/
structure MemberMeta where
  name : Option String
  display_name : Option String
  number : Option String
  other_groups : List (Option String)
deriving DecidableEq

/-- Build one member entry of the nested metadata for the group under
`key`, with the given owner and group universe. -/
def memberMeta (groups : List Contact) (key : String)
    (owner member : Contact) : MemberMeta :=
  { name := member.name
    display_name := member.profile_name
    number := member.number
    other_groups := other_groups groups key member owner }

/-- The nested per-group metadata document (`group_meta`,
main.py lines 191-211). The `exported_on` timestamp is supplied by the
caller in this embedding (the code takes the current wall-clock time). -/
structure GroupMeta where
  name : Option String
  exported_by : Option String
  exported_on : String
  members : List MemberMeta
deriving DecidableEq

/-- One row of the flattened tabular representation (`flat_meta`,
main.py lines 212-220). -/
structure FlatMeta where
  group_name : Option String
  exported_by : Option String
  exported_on : String
  num_shared_groups : Nat
  name : Option String
  display_name : Option String
  number : Option String
  other_groups : List (Option String)
deriving DecidableEq

/-- Flatten one member entry: duplicate the group-level fields and add
`num_shared_groups = len(m["other_groups"])` (main.py lines 212-220). -/
def flatten_member (gm : GroupMeta) (m : MemberMeta) : FlatMeta :=
  { group_name := gm.name
    exported_by := gm.exported_by
    exported_on := gm.exported_on
    num_shared_groups := m.other_groups.length
    name := m.name
    display_name := m.display_name
    number := m.number
    other_groups := m.other_groups }

/-- `members = [contacts_by_serviceId[m] for m in c.members]`
(main.py line 190): resolve each declared member service id against the
service-id index; a missing id raises `KeyError` carrying that id. -/
def resolveMembers (bySid : List (Option String × Contact)) :
    List String → Except String (List Contact)
  | [] => .ok []
  | m :: ms =>
    match dictGet? (some m) bySid with
    | none => .error ("KeyError: " ++ m)
    | some c => (resolveMembers bySid ms).map (c :: ·)

/-- The skip test of the group loop (main.py line 186):
`include_chats is not None and c.name not in include_chats`. -/
def skipByFilter (include_chats : Option (List String)) (c : Contact) : Bool :=
  match include_chats with
  | none => false
  | some l => !(optIn c.name l)

/-- The group loop of `export_channel_metadata` (main.py lines 183-230):
for each contact marked as a group and passing the name filter, resolve
its members, build the nested document and the flattened rows (the
flattened rows' field names are taken from the first row, so an empty
member list raises `IndexError`). Errors abort the loop as the raised
exception would. -/
def exportGroups (groups : List Contact)
    (bySid : List (Option String × Contact)) (owner : Contact)
    (include_chats : Option (List String)) (exported_on : String) :
    List (String × Contact) → Except String (List (GroupMeta × List FlatMeta))
  | [] => .ok []
  | (key, c) :: rest =>
    if !c.is_group then
      exportGroups groups bySid owner include_chats exported_on rest
    else if skipByFilter include_chats c then
      exportGroups groups bySid owner include_chats exported_on rest
    else
      match resolveMembers bySid c.members with
      | .error e => .error e
      | .ok members =>
        let gm : GroupMeta :=
          { name := c.name
            exported_by := owner.profile_name
            exported_on := exported_on
            members := members.map (memberMeta groups key owner) }
        let flat := gm.members.map (flatten_member gm)
        if flat.isEmpty then .error "IndexError: list index out of range"
        else
          (exportGroups groups bySid owner include_chats exported_on rest).map
            ((gm, flat) :: ·)

/-- `export_channel_metadata` (main.py lines 174-230) restricted to the
metadata it computes: the nested document and flattened rows per
qualifying group, in contact order. -/
def export_channel_metadata (contacts : Contacts) (owner : Contact)
    (include_chats : Option (List String)) (exported_on : String) :
    Except String (List (GroupMeta × List FlatMeta)) :=
  exportGroups (all_groups contacts) (contacts_by_serviceId contacts) owner
    include_chats exported_on contacts

/-- The network-only path of `main` (main.py lines 96-98): it calls
`export_channel_metadata` with `chats.split(",")` as the restriction list
— note Python splits the empty string into `[""]`, never into `None`. -/
def main_network_only (contacts : Contacts) (owner : Contact)
    (chats : String) (exported_on : String) :
    Except String (List (GroupMeta × List FlatMeta)) :=
  export_channel_metadata contacts owner (some (pySplitChar ',' chats)) exported_on

/-! Concrete instances used by counterexamples and witnesses. -/

/-- Owner contact O of the cross-reference scenario. -/
def demoO : Contact :=
  { id := "o", serviceId := some "sO", name := some "O", number := none,
    profile_name := some "Owner", members := [], is_group := false }

/-- Member contact A of the cross-reference scenario. -/
def demoA : Contact :=
  { id := "a", serviceId := some "sA", name := some "A", number := none,
    profile_name := none, members := [], is_group := false }

/-- Member contact B of the cross-reference scenario. -/
def demoB : Contact :=
  { id := "b", serviceId := some "sB", name := some "B", number := none,
    profile_name := none, members := [], is_group := false }

/-- Member contact C of the cross-reference scenario. -/
def demoC : Contact :=
  { id := "c", serviceId := some "sC", name := some "C", number := none,
    profile_name := none, members := [], is_group := false }

/-- Group G1 of the cross-reference scenario, with members O, A, B. -/
def demoG1 : Contact :=
  { id := "g1", serviceId := none, name := some "G1", number := none,
    profile_name := none, members := ["sO", "sA", "sB"], is_group := true }

/-- Group G2 of the cross-reference scenario, with members A, C, O: it
contains member A and also the owner O. -/
def demoG2 : Contact :=
  { id := "g2", serviceId := none, name := some "G2", number := none,
    profile_name := none, members := ["sA", "sC", "sO"], is_group := true }

/-- The contact map of the cross-reference scenario. -/
def demoContacts1 : Contacts :=
  [("o", demoO), ("a", demoA), ("b", demoB), ("c", demoC),
   ("g1", demoG1), ("g2", demoG2)]

/-- A group named Book Club, with one declared member. -/
def demoBookClub : Contact :=
  { id := "g9", serviceId := none, name := some "Book Club", number := none,
    profile_name := none, members := ["sM"], is_group := true }

/-- The sole member of the Book Club group. -/
def demoM : Contact :=
  { id := "m", serviceId := some "sM", name := some "M", number := none,
    profile_name := none, members := [], is_group := false }

/-- A contact map holding one direct contact and one group. -/
def demoContacts5 : Contacts := [("m", demoM), ("g9", demoBookClub)]

/-- A conversation row for a retained direct chat. -/
def demoConvoRow7 : ConvoRow :=
  { type := some "private", id := "c1", serviceId := some "s1", e164 := none,
    name := some "Alice", profileName := none, members := none }

/-- A message row with an excluded type and a non-zero expiration timer,
and a well-formed (empty-object) payload. -/
def demoMsgRow7 : MsgRow :=
  { conversationId := some "c1", type := some "keychange",
    json := .decoded ⟨none, none, none, none, none⟩, id := "m1",
    body := none, sourceServiceId := some "s1", timestamp := some 1,
    sent_at := some 1, serverTimestamp := some 1, hasAttachments := none,
    readStatus := none, seenStatus := none, expireTimer := some 1 }

/-- A message row with a malformed payload and message id mA. -/
def demoBadRowA : MsgRow :=
  { conversationId := some "c1", type := some "incoming",
    json := .malformed "oops" 0, id := "mA",
    body := none, sourceServiceId := some "s1", timestamp := some 1,
    sent_at := some 1, serverTimestamp := some 1, hasAttachments := none,
    readStatus := none, seenStatus := none, expireTimer := none }

/-- The same malformed payload under a different message id mB. -/
def demoBadRowB : MsgRow :=
  { demoBadRowA with id := "mB" }

/-- A message row with a malformed payload that every exclusion rule would
drop: falsy conversation id, excluded type, expiring without opt-in. -/
def demoBadRowDrop : MsgRow :=
  { conversationId := none, type := some "keychange",
    json := .malformed "nope" 0, id := "mD",
    body := none, sourceServiceId := none, timestamp := none,
    sent_at := none, serverTimestamp := none, hasAttachments := none,
    readStatus := none, seenStatus := none, expireTimer := some 5 }

/-- An ordinary message row with a well-formed payload. -/
def demoGoodRow : MsgRow :=
  { conversationId := some "c1", type := some "incoming",
    json := .decoded ⟨none, none, none, none, none⟩, id := "mG",
    body := some "hi", sourceServiceId := some "s1", timestamp := some 1,
    sent_at := some 1, serverTimestamp := some 1, hasAttachments := none,
    readStatus := none, seenStatus := none, expireTimer := none }

/-- A conversation row whose primary name is absent and whose profile name
is set. -/
def demoNamelessRow : ConvoRow :=
  { type := some "private", id := "c2", serviceId := some "s2", e164 := none,
    name := none, profileName := some "Bob", members := none }

/-- A message row with a non-excluded type, a well-formed payload and a
non-zero expiration timer. -/
def demoDisappearingRow : MsgRow :=
  { conversationId := some "c1", type := some "incoming",
    json := .decoded ⟨none, none, none, none, none⟩, id := "mT",
    body := some "soon gone", sourceServiceId := some "s1", timestamp := some 2,
    sent_at := some 2, serverTimestamp := some 2, hasAttachments := none,
    readStatus := none, seenStatus := none, expireTimer := some 604800 }

/-- A conversations map with one retained, still empty bucket. -/
def demoConvosC1 : Convos := [("c1", [])]

/-! Theorems settling the claims. -/

/-- Helper: a message row whose payload decodes is never a hard failure:
the loop iteration returns some updated conversations map. -/
theorem processMsgRow_jsonOk_ok (flag : Bool) (convos : Convos) (r : MsgRow)
    (h : jsonOk r.json = true) :
    ∃ c2, processMsgRow flag convos r = .ok c2 := by
  cases hd : r.json with
  | malformed doc pos => rw [hd] at h; simp [jsonOk] at h
  | decoded d =>
    unfold processMsgRow
    rw [hd]
    simp only [json_loads]
    cases r.conversationId with
    | none => exact ⟨convos, rfl⟩
    | some cid =>
      by_cases h1 : cid = "" <;> by_cases h2 : dictHas cid convos <;>
        by_cases h3 : excludedType r.type = true <;>
        by_cases h4 : (timerTruthy r.expireTimer && !flag) = true <;>
        simp [h1, h2, h3, h4]

/-- Helper: a message row whose payload is malformed makes the whole loop
fail with the decode error of that payload. -/
theorem processMsgRows_error_of_malformed (flag : Bool) (convos : Convos)
    (r : MsgRow) (rest : List MsgRow) (h : jsonOk r.json = false) :
    processMsgRows flag convos (r :: rest) = .error (decodeErrorOf r.json) := by
  cases hd : r.json with
  | malformed doc pos =>
    simp [processMsgRows, processMsgRow, json_loads, hd, decodeErrorOf]
  | decoded d => rw [hd] at h; simp [jsonOk] at h

/-- C1 counterexample: in the scenario with owner O, group G1 holding O, A,
B and group G2 holding A, C, O, requesting metadata for G1 with owner O
gives member A (the second member) `other_groups` equal to the name of G2,
not the empty list the claim predicts: A's co-membership with the owner in
G2 is not redacted. -/
theorem C1_counterexample :
    (export_channel_metadata demoContacts1 demoO (some ["G1"]) "t").map
        (fun l => l.map fun p => p.1.members.map (·.other_groups))
      = .ok [[[], [some "G2"], []]]
    ∧ ¬ ((export_channel_metadata demoContacts1 demoO (some ["G1"]) "t").map
        (fun l => l.map fun p => p.1.members.map (·.other_groups))
      = .ok [[[], [], []]]) :=
  ⟨by decide, by decide⟩

/-- C1 (amended): the owner-identity redaction in the cross-reference
applies only when the member under consideration is the owner itself: for
a member whose service id differs from the owner's, `other_groups` lists
every other group (by id) containing the member's service id, with no
exclusion of groups the owner belongs to. -/
theorem C1_owner_redaction_member_only (groups : List Contact) (key : String)
    (member owner : Contact) (h : member.serviceId ≠ owner.serviceId) :
    other_groups groups key member owner =
      (groups.filter fun g =>
        sidMem member.serviceId g.members && !(key == g.id)).map (·.name) := by
  unfold other_groups
  congr 1
  apply List.filter_congr
  intro g _
  have hb : (member.serviceId == owner.serviceId) = false :=
    beq_eq_false_iff_ne.mpr h
  rw [hb]
  simp

/-- Witness for C1 (amended): member A against owner O over the scenario
groups; A's `other_groups` for G1 is exactly the unredacted list. -/
theorem C1_witness :
    demoA.serviceId ≠ demoO.serviceId ∧
    other_groups [demoG1, demoG2] "g1" demoA demoO =
      ([demoG1, demoG2].filter fun g =>
        sidMem demoA.serviceId g.members && !("g1" == g.id)).map (·.name) :=
  ⟨by decide,
   C1_owner_redaction_member_only [demoG1, demoG2] "g1" demoA demoO (by decide)⟩

/-- C2: `fetch_data` returns a 2-tuple while `main` unpacks its result
into three targets, so whenever the fetch itself succeeds, the data-fetch
step of `main` fails with the Python unpacking `ValueError` before
producing anything (in particular the owner value the metadata path needs
never exists). -/
theorem C2_fetch_unpack_mismatch (chats : String)
    (include_empty include_disappearing : Bool) (convoRows : List ConvoRow)
    (msgRows : List MsgRow) (p : Convos × Contacts)
    (h : fetch_data chats include_empty include_disappearing convoRows msgRows
      = .ok p) :
    main_data_step chats include_empty include_disappearing convoRows msgRows
      = .error "ValueError: not enough values to unpack (expected 3, got 2)" := by
  unfold main_data_step
  rw [h]
  exact rfl

/-- Witness for C2: the empty store fetches successfully and the unpacking
step fails on it. -/
theorem C2_witness :
    fetch_data "" true true [] [] = .ok ([], []) ∧
    main_data_step "" true true [] []
      = .error "ValueError: not enough values to unpack (expected 3, got 2)" :=
  ⟨by decide, C2_fetch_unpack_mismatch "" true true [] [] ([], []) (by decide)⟩

/-- C3 counterexample: two message rows that differ only in their message
id but share the same malformed payload make ingestion fail with the
identical decode error, so the error cannot identify the offending
message's id (it carries only the decoder message, document and position). -/
theorem C3_counterexample :
    demoBadRowA.id ≠ demoBadRowB.id ∧
    processMsgRows false demoConvosC1 [demoBadRowA]
      = processMsgRows false demoConvosC1 [demoBadRowB] ∧
    processMsgRows false demoConvosC1 [demoBadRowA]
      = .error { msg := "Expecting value", doc := "oops", pos := 0 } :=
  ⟨by decide, by decide, by decide⟩

/-- C3 (amended): a message row whose embedded payload fails to decode is
a hard ingestion failure — the decode error propagates out of the loop and
the row is never silently dropped — but the propagated error is a function
of the payload column alone and does not identify the offending message's
id. -/
theorem C3_decode_failure_propagates (flag : Bool) (convos : Convos)
    (r : MsgRow) (rest : List MsgRow) (h : jsonOk r.json = false) :
    processMsgRows flag convos (r :: rest) = .error (decodeErrorOf r.json) :=
  processMsgRows_error_of_malformed flag convos r rest h

/-- Witness for C3 (amended): a concrete malformed row aborts a stream
that also holds a well-formed row. -/
theorem C3_witness :
    jsonOk demoBadRowA.json = false ∧
    processMsgRows false demoConvosC1 (demoBadRowA :: [demoGoodRow])
      = .error (decodeErrorOf demoBadRowA.json) :=
  ⟨by decide,
   C3_decode_failure_propagates false demoConvosC1 demoBadRowA [demoGoodRow]
     (by decide)⟩

/-- C4 counterexample: the session command sequence does not apply the
cipher parameters in the order the claim states (page size, iteration
count, HMAC, key-derivation algorithm, then the secret): its kind sequence
differs from that order. -/
theorem C4_counterexample :
    ¬ ((sessionCommands "k").map DbCommand.kind
      = claimedCipherOrder ++ [.queryK, .queryK]) := by
  decide

/-- C4 (amended): the fixed cipher parameters are all applied before any
query executes, but the secret is bound as the key parameter first,
followed by page size, key-derivation iteration count, HMAC algorithm and
key-derivation algorithm. -/
theorem C4_key_bound_first (key : String) :
    (sessionCommands key).map DbCommand.kind
      = [.keyK, .pageSizeK, .kdfIterK, .hmacK, .kdfK, .queryK, .queryK] :=
  rfl

/-- C5 (code bug): with an empty chat allow-list, the network-only path of
`main` splits the empty string into a one-element list holding the empty
string, so a contact marked as a group (here named Book Club) is skipped
and nothing is exported — while the same contacts with no restriction list
do export that group. -/
theorem C5_empty_allowlist_skips_groups :
    demoBookClub.is_group = true ∧
    main_network_only demoContacts5 demoO "" "t" = .ok [] ∧
    (export_channel_metadata demoContacts5 demoO none "t").map
      (fun l => l.map (·.1.name)) = .ok [some "Book Club"] :=
  ⟨rfl, by decide, by decide⟩

/-- C6: a conversation row with an absent primary name and a set profile
name normalizes to a Contact whose name is the profile name. -/
theorem C6_name_fallback (r : ConvoRow) (p : String) (h1 : r.name = none)
    (h2 : r.profileName = some p) : (normalizeContact r).name = some p := by
  unfold normalizeContact
  simp [h1, h2]

/-- Witness for C6: a concrete nameless row takes its profile name. -/
theorem C6_witness :
    demoNamelessRow.name = none ∧ demoNamelessRow.profileName = some "Bob" ∧
    (normalizeContact demoNamelessRow).name = some "Bob" :=
  ⟨rfl, rfl, C6_name_fallback demoNamelessRow "Bob" rfl rfl⟩

/-- C7 counterexample: a message row with a non-zero expiration timer and
an excluded type, ingested with the include-disappearing flag true into a
retained conversation, does not appear in the output — refuting the
claimed equivalence between appearing and the flag being true. -/
theorem C7_counterexample :
    demoMsgRow7.expireTimer = some 1 ∧
    (fetch_data "" true true [demoConvoRow7] [demoMsgRow7]).map
      (fun p => msgInConvos p.1 "m1") = .ok false :=
  ⟨rfl, by decide⟩

/-- C7 (amended): a message row with a non-zero expiration timer and a
well-formed payload appears only if the include-disappearing flag is true:
with the flag false the row is always dropped (the conversations map is
unchanged), and with the flag true the timer plays no further role — the
row is treated exactly as the same row with no timer, so inclusion is
decided by the remaining exclusion rules. -/
theorem C7_timer_gate (convos : Convos) (r : MsgRow)
    (ht : timerTruthy r.expireTimer = true) (hj : jsonOk r.json = true) :
    processMsgRow false convos r = .ok convos ∧
    processMsgRow true convos r
      = processMsgRow true convos { r with expireTimer := none } := by
  cases hd : r.json with
  | malformed doc pos => rw [hd] at hj; simp [jsonOk] at hj
  | decoded d =>
    cases r with
    | mk cid ty js mid body src ts sa st ha rs ss et =>
      simp only at hd ht
      subst hd
      constructor
      · unfold processMsgRow
        simp only [json_loads]
        cases cid with
        | none => rfl
        | some c =>
          by_cases h1 : c = "" <;> by_cases h2 : dictHas c convos <;>
            by_cases h3 : excludedType ty = true <;> simp [h1, h2, h3, ht]
      · unfold processMsgRow
        simp only [json_loads]
        cases cid with
        | none => rfl
        | some c =>
          by_cases h1 : c = "" <;> by_cases h2 : dictHas c convos <;>
            by_cases h3 : excludedType ty = true <;>
            simp [h1, h2, h3, ht, timerTruthy, mkRawMessage]

/-- Witness for C7 (amended): a concrete disappearing message row is
dropped with the flag false and timer-agnostic with the flag true. -/
theorem C7_witness :
    timerTruthy demoDisappearingRow.expireTimer = true ∧
    jsonOk demoDisappearingRow.json = true ∧
    (processMsgRow false demoConvosC1 demoDisappearingRow = .ok demoConvosC1 ∧
     processMsgRow true demoConvosC1 demoDisappearingRow
       = processMsgRow true demoConvosC1
           { demoDisappearingRow with expireTimer := none }) :=
  ⟨by decide, by decide,
   C7_timer_gate demoConvosC1 demoDisappearingRow (by decide) (by decide)⟩

/-- C8: the payload is decoded before any exclusion rule is evaluated, so
any stream containing a row with a malformed payload makes the whole
message loop fail — whether or not that row would have been dropped by the
exclusion rules. -/
theorem C8_decode_before_exclusion (flag : Bool) (convos : Convos)
    (rows : List MsgRow) (h : ∃ r ∈ rows, jsonOk r.json = false) :
    ∃ e, processMsgRows flag convos rows = .error e := by
  induction rows generalizing convos with
  | nil => obtain ⟨r, hr, _⟩ := h; exact absurd hr (List.not_mem_nil r)
  | cons r rest ih =>
    by_cases hj : jsonOk r.json = true
    · obtain ⟨c2, hc2⟩ := processMsgRow_jsonOk_ok flag convos r hj
      obtain ⟨rm, hm, hmf⟩ := h
      rcases List.mem_cons.mp hm with heq | hmem
      · subst heq; rw [hj] at hmf; exact Bool.noConfusion hmf
      · obtain ⟨e, he⟩ := ih c2 ⟨rm, hmem, hmf⟩
        exact ⟨e, by simp [processMsgRows, hc2, he]⟩
    · have hj2 : jsonOk r.json = false := by
        cases hb : jsonOk r.json
        · rfl
        · exact absurd hb hj
      exact ⟨decodeErrorOf r.json,
        processMsgRows_error_of_malformed flag convos r rest hj2⟩

/-- Witness for C8: a stream whose only row has a malformed payload and
would otherwise be dropped by every exclusion rule (falsy conversation id,
excluded type, expiring without opt-in) still fails ingestion. -/
theorem C8_witness :
    (∃ r ∈ [demoBadRowDrop], jsonOk r.json = false) ∧
    ∃ e, processMsgRows false [] [demoBadRowDrop] = .error e :=
  ⟨⟨demoBadRowDrop, by simp, by decide⟩,
   C8_decode_before_exclusion false [] [demoBadRowDrop]
     ⟨demoBadRowDrop, by simp, by decide⟩⟩

/-- C9: the Conversation Pruner with include-empty false is idempotent:
pruning a pruned conversations map changes nothing. -/
theorem C9_pruner_idempotent (convos : Convos) :
    pruneConvos false (pruneConvos false convos) = pruneConvos false convos := by
  simp [pruneConvos, List.filter_filter]

/-- C10: a member record built for a member whose service id equals the
owner's always carries an empty `other_groups` list, and its flattened row
a zero `num_shared_groups`, whatever groups the owner belongs to. -/
theorem C10_owner_record_redacted (groups : List Contact) (key : String)
    (owner member : Contact) (gm : GroupMeta)
    (h : member.serviceId = owner.serviceId) :
    (memberMeta groups key owner member).other_groups = [] ∧
    (flatten_member gm (memberMeta groups key owner member)).num_shared_groups
      = 0 := by
  have hg : other_groups groups key member owner = [] := by
    unfold other_groups
    have hall : ∀ g ∈ groups,
        ¬ ((sidMem member.serviceId g.members
          && (!(key == g.id) && !(member.serviceId == owner.serviceId)))
          = true) := by
      intro g _
      rw [h]
      simp
    rw [List.filter_eq_nil_iff.mpr hall]
    rfl
  refine ⟨?_, ?_⟩
  · simpa [memberMeta] using hg
  · simp [flatten_member, memberMeta, hg]

/-- Witness for C10: the owner O of the cross-reference scenario belongs
to both scenario groups, yet its own member record for G1 shows no shared
group at all. -/
theorem C10_witness :
    demoO.serviceId = demoO.serviceId ∧
    ((memberMeta [demoG1, demoG2] "g1" demoO demoO).other_groups = [] ∧
     (flatten_member ⟨some "G1", some "Owner", "t", []⟩
       (memberMeta [demoG1, demoG2] "g1" demoO demoO)).num_shared_groups = 0) :=
  ⟨rfl,
   C10_owner_record_redacted [demoG1, demoG2] "g1" demoO demoO
     ⟨some "G1", some "Owner", "t", []⟩ rfl⟩

end Sigexport
